import Mathlib

/-
  Shallow embedding of the USB Audio Class 1.0 driver core from
  Middlewares/ST/STM32_USB_Device_Library/Class/AUDIO/Src/usbd_audio.c:
  the streaming circular-buffer engine (USBD_AUDIO_DataOut, USBD_AUDIO_Sync)
  and the mute control-request machinery (USBD_AUDIO_Setup,
  AUDIO_REQ_GetCurrent, AUDIO_REQ_SetCurrent, USBD_AUDIO_EP0_RxReady).

  Machine integers are modelled as Nat with explicit truncation where the
  C source stores into a narrower field (uint16_t cursors truncate mod
  65536, the uint8_t length field truncates mod 256).  External
  collaborator calls (AudioCmd, PeriodicTC, MuteCtl, USBD_LL_PrepareReceive,
  USBD_CtlSendData, USBD_CtlPrepareRx, USBD_CtlError) are recorded as an
  event list in program order.
-/

namespace UsbdAudio

/-- Modelled from the spec: the configuration header usbd_audio.h is not part
of the provided sources; the spec fixes the circular buffer capacity
AUDIO_TOTAL_BUF_SIZE at 2048 bytes. -/
def AUDIO_TOTAL_BUF_SIZE : Nat := 2048

/-- Modelled from the spec: usbd_audio.h is missing; the spec gives the
per-period packet size as 48 kHz x 2 channels x 2 bytes / 1000 = 192 bytes
(AUDIO_OUT_PACKET). -/
def AUDIO_OUT_PACKET : Nat := 192

/-- Modelled from the spec: usbd_def.h is missing; the control endpoint
maximum packet size USB_MAX_EP0_SIZE is the standard 64 bytes. -/
def USB_MAX_EP0_SIZE : Nat := 64

/-- Modelled from the spec: usbd_audio.h is missing; AUDIO_REQ_SET_CUR is the
UAC 1.0 SET_CUR request code 0x01. -/
def AUDIO_REQ_SET_CUR : Nat := 0x01

/-- Modelled from the spec: usbd_audio.h is missing; AUDIO_REQ_GET_CUR is the
UAC 1.0 GET_CUR request code 0x81. -/
def AUDIO_REQ_GET_CUR : Nat := 0x81

/-- Modelled from the spec: usbd_audio.h is missing; the single controllable
(mute) unit id AUDIO_OUT_STREAMING_CTRL, standard value 0x02. -/
def AUDIO_OUT_STREAMING_CTRL : Nat := 0x02

/-- Modelled from the spec: usbd_audio.h is missing; the isochronous OUT
endpoint address AUDIO_OUT_EP, standard value 0x01. -/
def AUDIO_OUT_EP : Nat := 0x01

/-- Static endpoint-address variable of usbd_audio.c line 453 (non-composite
build keeps it at its initializer AUDIO_OUT_EP). -/
def AUDIOOutEpAdd : Nat := AUDIO_OUT_EP

-- Missing-header constants used only by the standard-request dispatch of
-- USBD_AUDIO_Setup (usbd_def.h and the configuration header).
def USB_REQ_TYPE_MASK : Nat := 0x60
def USB_REQ_TYPE_CLASS : Nat := 0x20
def USB_REQ_TYPE_STANDARD : Nat := 0x00
def USB_REQ_GET_STATUS : Nat := 0x00
def USB_REQ_CLEAR_FEATURE : Nat := 0x01
def USB_REQ_GET_DESCRIPTOR : Nat := 0x06
def USB_REQ_GET_INTERFACE : Nat := 0x0A
def USB_REQ_SET_INTERFACE : Nat := 0x0B
def USBD_STATE_CONFIGURED : Nat := 3
def USBD_MAX_NUM_INTERFACES : Nat := 1
def AUDIO_DESCRIPTOR_TYPE : Nat := 0x21
def USB_AUDIO_DESC_SIZ : Nat := 0x09

/-- AUDIO_OffsetTypeDef enum of usbd_audio.h (values NONE, HALF, FULL,
UNKNOWN). -/
inductive AUDIO_OffsetTypeDef
  | none
  | half
  | full
  | unknown
deriving DecidableEq

/-- Audio command codes AUDIO_CMD_START, AUDIO_CMD_PLAY, AUDIO_CMD_STOP
passed to the AudioCmd collaborator callback. -/
inductive AudioCmd
  | start
  | play
  | stop
deriving DecidableEq

/-- USBD_StatusTypeDef return codes. -/
inductive USBD_Status
  | ok
  | busy
  | emem
  | fail
deriving DecidableEq

/-- USBD_AUDIO_ControlTypeDef: the pending control-transaction record
(cmd, data buffer of USB_MAX_EP0_SIZE bytes, len, unit). -/
structure USBD_AUDIO_ControlTypeDef where
  cmd : Nat
  data : List Nat
  len : Nat
  unit : Nat
deriving DecidableEq

/-- USBD_AUDIO_HandleTypeDef: the class session state (the audio sample
buffer contents themselves are owned by the transport DMA and are not
modelled; commands carry buffer offsets instead). -/
structure USBD_AUDIO_HandleTypeDef where
  alt_setting : Nat
  offset : AUDIO_OffsetTypeDef
  wr_ptr : Nat
  rd_ptr : Nat
  rd_enable : Nat
  control : USBD_AUDIO_ControlTypeDef
deriving DecidableEq

/-- USBD_SetupReqTypedef: a setup packet. -/
structure USBD_SetupReqTypedef where
  bmRequest : Nat
  bRequest : Nat
  wValue : Nat
  wIndex : Nat
  wLength : Nat
deriving DecidableEq

/-- Observable collaborator calls, recorded in program order.  audioCmd and
periodicTC carry the byte offset into haudio.buffer that the C code passes
as a pointer. -/
inductive Event
  | audioCmd (bufOffset size : Nat) (cmd : AudioCmd)
  | periodicTC (bufOffset size : Nat)
  | muteCtl (value : Nat)
  | prepareReceive (bufOffset len : Nat)
  | ctlSendData (bytes : List Nat)
  | ctlPrepareRx (len : Nat)
  | ctlError
deriving DecidableEq

/-- The slice of USBD_HandleTypeDef the audio class touches: the per-class
data slot pClassDataCmsit[classId] (None models the NULL pointer), the
device state, and the result of the descriptor-parsing collaborator
USBD_AUDIO_GetAudioHeaderDesc on pConfDesc (None models a NULL result). -/
structure PDev where
  classData : Option USBD_AUDIO_HandleTypeDef
  dev_state : Nat
  audioHeaderDesc : Option (List Nat)
deriving DecidableEq

/-- Session state stored by USBD_AUDIO_Init (usbd_audio.c lines 504 to 508):
alt_setting 0, offset UNKNOWN, cursors 0, rd_enable 0.  The source leaves
the control record as uninitialized heap memory; it is zeroed here, and no
theorem about the buffer engine depends on it. -/
def initAudioHandle : USBD_AUDIO_HandleTypeDef :=
  { alt_setting := 0
    offset := AUDIO_OffsetTypeDef.unknown
    wr_ptr := 0
    rd_ptr := 0
    rd_enable := 0
    control := { cmd := 0, data := List.replicate USB_MAX_EP0_SIZE 0, len := 0, unit := 0 } }

/-- A configured device right after USBD_AUDIO_Init succeeded. -/
def initPDev : PDev :=
  { classData := some initAudioHandle
    dev_state := USBD_STATE_CONFIGURED
    audioHeaderDesc := Option.none }

/-- Drift-compensation computation of USBD_AUDIO_Sync, usbd_audio.c lines
802 to 829, factored out verbatim: starting from the nominal half-buffer
size, compare the two cursors and apply the bang-bang plus or minus 4
correction. -/
def driftAdjustedSize (rd wr : Nat) : Nat :=
  let B := AUDIO_TOTAL_BUF_SIZE / 2
  if rd > wr then
    if rd - wr < AUDIO_OUT_PACKET then B + 4
    else if rd - wr > AUDIO_TOTAL_BUF_SIZE - AUDIO_OUT_PACKET then B - 4
    else B
  else
    if wr - rd < AUDIO_OUT_PACKET then B - 4
    else if wr - rd > AUDIO_TOTAL_BUF_SIZE - AUDIO_OUT_PACKET then B + 4
    else B

/-- USBD_AUDIO_Sync (usbd_audio.c lines 777 to 837): store the offset
argument, advance rd_ptr by the nominal half buffer when rd_enable is set
(uint16_t addition, roll back to 0 on exact equality with the capacity),
compute the drift-adjusted size, and issue AUDIO_CMD_PLAY when the stored
offset equals AUDIO_OFFSET_FULL. -/
def USBD_AUDIO_Sync (p : PDev) (offset : AUDIO_OffsetTypeDef) :
    PDev × List Event :=
  match p.classData with
  | Option.none => (p, [])
  | Option.some h0 =>
    let h1 := { h0 with offset := offset }
    let rdAdv := (h1.rd_ptr + AUDIO_TOTAL_BUF_SIZE / 2) % 65536
    let h2 :=
      if h1.rd_enable = 1 then
        { h1 with rd_ptr := if rdAdv = AUDIO_TOTAL_BUF_SIZE then 0 else rdAdv }
      else h1
    let BufferSize := driftAdjustedSize h2.rd_ptr h2.wr_ptr
    if h2.offset = AUDIO_OffsetTypeDef.full then
      ({ p with classData := some { h2 with offset := AUDIO_OffsetTypeDef.none } },
       [Event.audioCmd 0 BufferSize AudioCmd.play])
    else ({ p with classData := some h2 }, [])

/-- USBD_AUDIO_DataOut (usbd_audio.c lines 874 to 932): on the audio OUT
endpoint, report the received packet (PeriodicTC), advance wr_ptr
(uint16_t addition) and roll it back to 0 when it reaches or passes the
capacity, firing the one-shot AUDIO_CMD_START when offset is still
UNKNOWN; then set rd_enable once wr_ptr equals half the capacity, and
re-arm reception at the new wr_ptr.  The branch conditions of the source
are restated once per updated field. -/
def USBD_AUDIO_DataOut (p : PDev) (epnum PacketSize : Nat) :
    USBD_Status × PDev × List Event :=
  match p.classData with
  | Option.none => (USBD_Status.fail, p, [])
  | Option.some h =>
    if epnum = AUDIOOutEpAdd then
      let wr1 := (h.wr_ptr + PacketSize) % 65536
      let wr2 := if AUDIO_TOTAL_BUF_SIZE ≤ wr1 then 0 else wr1
      let offset2 :=
        if AUDIO_TOTAL_BUF_SIZE ≤ wr1 ∧ h.offset = AUDIO_OffsetTypeDef.unknown then
          AUDIO_OffsetTypeDef.none
        else h.offset
      let startEvs : List Event :=
        if AUDIO_TOTAL_BUF_SIZE ≤ wr1 ∧ h.offset = AUDIO_OffsetTypeDef.unknown then
          [Event.audioCmd 0 (AUDIO_TOTAL_BUF_SIZE / 2) AudioCmd.start]
        else []
      let rd2 :=
        if h.rd_enable = 0 then
          if wr2 = AUDIO_TOTAL_BUF_SIZE / 2 then 1 else h.rd_enable
        else h.rd_enable
      (USBD_Status.ok,
       { p with classData := some { h with wr_ptr := wr2, offset := offset2, rd_enable := rd2 } },
       [Event.periodicTC h.wr_ptr PacketSize] ++ startEvs
         ++ [Event.prepareReceive wr2 AUDIO_OUT_PACKET])
    else (USBD_Status.ok, p, [])

/-- USBD_AUDIO_EP0_RxReady (usbd_audio.c lines 720 to 743): when a SET_CUR
command is pending and it targets the streaming-control (mute) unit,
invoke MuteCtl with control.data[0] and clear cmd and len; any other
pending unit is left untouched. -/
def USBD_AUDIO_EP0_RxReady (p : PDev) : USBD_Status × PDev × List Event :=
  match p.classData with
  | Option.none => (USBD_Status.fail, p, [])
  | Option.some h =>
    if h.control.cmd = AUDIO_REQ_SET_CUR then
      if h.control.unit = AUDIO_OUT_STREAMING_CTRL then
        (USBD_Status.ok,
         { p with classData := some { h with control := { h.control with cmd := 0, len := 0 } } },
         [Event.muteCtl (h.control.data.headD 0)])
      else (USBD_Status.ok, p, [])
    else (USBD_Status.ok, p, [])

/-- AUDIO_REQ_GetCurrent (usbd_audio.c lines 941 to 956): zero the whole
control data buffer and send MIN(wLength, USB_MAX_EP0_SIZE) bytes of it. -/
def AUDIO_REQ_GetCurrent (p : PDev) (req : USBD_SetupReqTypedef) :
    PDev × List Event :=
  match p.classData with
  | Option.none => (p, [])
  | Option.some h =>
    let c := { h.control with data := List.replicate USB_MAX_EP0_SIZE 0 }
    ({ p with classData := some { h with control := c } },
     [Event.ctlSendData (c.data.take (min req.wLength USB_MAX_EP0_SIZE))])

/-- AUDIO_REQ_SetCurrent (usbd_audio.c lines 965 to 984): for a non-zero
wLength, record the pending command, the uint8_t-truncated clamped length
and the target unit HIBYTE(wIndex), and arm EP0 reception of len bytes
into control.data; a zero wLength does nothing. -/
def AUDIO_REQ_SetCurrent (p : PDev) (req : USBD_SetupReqTypedef) :
    PDev × List Event :=
  match p.classData with
  | Option.none => (p, [])
  | Option.some h =>
    if req.wLength ≠ 0 then
      let c := { h.control with
                 cmd := AUDIO_REQ_SET_CUR
                 len := (min req.wLength USB_MAX_EP0_SIZE) % 256
                 unit := req.wIndex / 256 % 256 }
      ({ p with classData := some { h with control := c } },
       [Event.ctlPrepareRx ((min req.wLength USB_MAX_EP0_SIZE) % 256)])
    else (p, [])

/-- USBD_AUDIO_Setup (usbd_audio.c lines 565 to 682): NULL-check the class
data, then dispatch on the request type.  Class requests go to
AUDIO_REQ_GetCurrent and AUDIO_REQ_SetCurrent; the standard-request arm
mirrors the source, with the descriptor-parsing collaborator
USBD_AUDIO_GetAudioHeaderDesc represented by the audioHeaderDesc field. -/
def USBD_AUDIO_Setup (p : PDev) (req : USBD_SetupReqTypedef) :
    USBD_Status × PDev × List Event :=
  match p.classData with
  | Option.none => (USBD_Status.fail, p, [])
  | Option.some h =>
    if req.bmRequest &&& USB_REQ_TYPE_MASK = USB_REQ_TYPE_CLASS then
      if req.bRequest = AUDIO_REQ_GET_CUR then
        let r := AUDIO_REQ_GetCurrent p req
        (USBD_Status.ok, r.1, r.2)
      else if req.bRequest = AUDIO_REQ_SET_CUR then
        let r := AUDIO_REQ_SetCurrent p req
        (USBD_Status.ok, r.1, r.2)
      else (USBD_Status.fail, p, [Event.ctlError])
    else if req.bmRequest &&& USB_REQ_TYPE_MASK = USB_REQ_TYPE_STANDARD then
      if req.bRequest = USB_REQ_GET_STATUS then
        if p.dev_state = USBD_STATE_CONFIGURED then
          (USBD_Status.ok, p, [Event.ctlSendData [0, 0]])
        else (USBD_Status.fail, p, [Event.ctlError])
      else if req.bRequest = USB_REQ_GET_DESCRIPTOR then
        if req.wValue / 256 = AUDIO_DESCRIPTOR_TYPE then
          match p.audioHeaderDesc with
          | Option.some pbuf =>
            (USBD_Status.ok, p,
             [Event.ctlSendData (pbuf.take (min USB_AUDIO_DESC_SIZ req.wLength))])
          | Option.none => (USBD_Status.fail, p, [Event.ctlError])
        else (USBD_Status.ok, p, [])
      else if req.bRequest = USB_REQ_GET_INTERFACE then
        if p.dev_state = USBD_STATE_CONFIGURED then
          (USBD_Status.ok, p, [Event.ctlSendData [h.alt_setting]])
        else (USBD_Status.fail, p, [Event.ctlError])
      else if req.bRequest = USB_REQ_SET_INTERFACE then
        if p.dev_state = USBD_STATE_CONFIGURED then
          if req.wValue % 256 ≤ USBD_MAX_NUM_INTERFACES then
            (USBD_Status.ok,
             { p with classData := some { h with alt_setting := req.wValue % 256 } }, [])
          else (USBD_Status.fail, p, [Event.ctlError])
        else (USBD_Status.fail, p, [Event.ctlError])
      else if req.bRequest = USB_REQ_CLEAR_FEATURE then (USBD_Status.ok, p, [])
      else (USBD_Status.fail, p, [Event.ctlError])
    else (USBD_Status.fail, p, [Event.ctlError])

/-- One USBD_AUDIO_DataOut step on the audio OUT endpoint with a nominal
192-byte packet, keeping only the device state (the 48 kHz stereo 16-bit
1 ms scenario of the spec). -/
def dataOutStep (p : PDev) : PDev :=
  (USBD_AUDIO_DataOut p AUDIO_OUT_EP AUDIO_OUT_PACKET).2.1

/-- The collaborator calls of one such USBD_AUDIO_DataOut step. -/
def dataOutEvents (p : PDev) : List Event :=
  (USBD_AUDIO_DataOut p AUDIO_OUT_EP AUDIO_OUT_PACKET).2.2

/-- Recognises the one-shot AUDIO_CMD_START playback command. -/
def isStartCmd : Event → Bool
  | Event.audioCmd _ _ AudioCmd.start => true
  | _ => false

/-- Whether the next 192-byte packet delivered to p makes the driver issue
AUDIO_CMD_START. -/
def emitsStart (p : PDev) : Bool := (dataOutEvents p).any isStartCmd

/-- Device state after n 192-byte packets, starting from a fresh
USBD_AUDIO_Init state. -/
def stateAfter : Nat → PDev
  | 0 => initPDev
  | n + 1 => dataOutStep (stateAfter n)

/-- Whether processing the n-th packet (1-indexed) issues AUDIO_CMD_START. -/
def startOnCall (n : Nat) : Bool := emitsStart (stateAfter (n - 1))

/-- The offset field of the session, when a session exists. -/
def offsetOf (p : PDev) : Option AUDIO_OffsetTypeDef :=
  p.classData.map (fun h => h.offset)

/-- Deliver a list of packets of the given byte lengths to the audio OUT
endpoint, one USBD_AUDIO_DataOut call each. -/
def deliverList : PDev → List Nat → PDev
  | p, [] => p
  | p, l :: ls => deliverList ((USBD_AUDIO_DataOut p AUDIO_OUT_EP l).2.1) ls

/-- Eleven nominal 192-byte packets: their lengths sum to 2112, past the
2048-byte capacity. -/
def elevenPackets : List Nat := List.replicate 11 192

/-- A class SET_CUR setup packet with the given wLength and wIndex. -/
def setCurReq (wLength wIndex : Nat) : USBD_SetupReqTypedef :=
  { bmRequest := 0x21, bRequest := AUDIO_REQ_SET_CUR, wValue := 0,
    wIndex := wIndex, wLength := wLength }

/-- A class GET_CUR setup packet asking for one byte. -/
def getCurReqOne : USBD_SetupReqTypedef :=
  { bmRequest := 0xA1, bRequest := AUDIO_REQ_GET_CUR, wValue := 0,
    wIndex := 0x0200, wLength := 1 }

/-- Collaborator action: completion of the EP0 data stage armed by
USBD_CtlPrepareRx deposits the received bytes at the front of the armed
control.data buffer before USBD_AUDIO_EP0_RxReady runs. -/
def receiveControlPayload (payload : List Nat) (p : PDev) : PDev :=
  match p.classData with
  | Option.none => p
  | Option.some h =>
    { p with classData := some { h with control :=
        { h.control with data := payload ++ h.control.data.drop payload.length } } }

/-- Full SET_CUR round trip: setup packet with wLength 1, data stage
delivering the payload, then the EP0 RxReady completion event. -/
def muteRoundTrip (p : PDev) (wIndex : Nat) (payload : List Nat) :
    USBD_Status × PDev × List Event :=
  USBD_AUDIO_EP0_RxReady
    (receiveControlPayload payload (AUDIO_REQ_SetCurrent p (setCurReq 1 wIndex)).1)

/-- A session with a pending SET_CUR addressed at unit 3, which is not the
mute-control unit. -/
def pendingOtherUnitPDev : PDev :=
  { classData := some { initAudioHandle with control :=
      { cmd := AUDIO_REQ_SET_CUR, data := List.replicate USB_MAX_EP0_SIZE 0,
        len := 1, unit := 3 } }
    dev_state := USBD_STATE_CONFIGURED
    audioHeaderDesc := Option.none }

/-- A session with a pending SET_CUR addressed at the mute-control unit. -/
def pendingMuteHandle : USBD_AUDIO_HandleTypeDef :=
  { initAudioHandle with control :=
      { cmd := AUDIO_REQ_SET_CUR, data := 1 :: List.replicate 63 0,
        len := 1, unit := AUDIO_OUT_STREAMING_CTRL } }

/-- The device holding pendingMuteHandle. -/
def pendingMutePDev : PDev :=
  { classData := some pendingMuteHandle
    dev_state := USBD_STATE_CONFIGURED
    audioHeaderDesc := Option.none }

/-- A device whose per-class data slot is NULL. -/
def nullPDev : PDev :=
  { classData := Option.none
    dev_state := USBD_STATE_CONFIGURED
    audioHeaderDesc := Option.none }

/-- Closed form of a USBD_AUDIO_DataOut call on the audio OUT endpoint with
a live session: status OK, the three cursor and flag updates, and the
PeriodicTC, optional Start, PrepareReceive event sequence. -/
theorem dataOut_eq (p : PDev) (h : USBD_AUDIO_HandleTypeDef) (ep sz : Nat)
    (hp : p.classData = some h) (hep : ep = AUDIOOutEpAdd) :
    USBD_AUDIO_DataOut p ep sz =
      (USBD_Status.ok,
       { p with classData := some { h with
           wr_ptr := if AUDIO_TOTAL_BUF_SIZE ≤ (h.wr_ptr + sz) % 65536 then 0
                     else (h.wr_ptr + sz) % 65536
           offset := if AUDIO_TOTAL_BUF_SIZE ≤ (h.wr_ptr + sz) % 65536 ∧
                        h.offset = AUDIO_OffsetTypeDef.unknown then AUDIO_OffsetTypeDef.none
                     else h.offset
           rd_enable := if h.rd_enable = 0 then
                          (if (if AUDIO_TOTAL_BUF_SIZE ≤ (h.wr_ptr + sz) % 65536 then 0
                               else (h.wr_ptr + sz) % 65536) = AUDIO_TOTAL_BUF_SIZE / 2 then 1
                           else h.rd_enable)
                        else h.rd_enable } },
       [Event.periodicTC h.wr_ptr sz]
         ++ (if AUDIO_TOTAL_BUF_SIZE ≤ (h.wr_ptr + sz) % 65536 ∧
                h.offset = AUDIO_OffsetTypeDef.unknown then
               [Event.audioCmd 0 (AUDIO_TOTAL_BUF_SIZE / 2) AudioCmd.start]
             else [])
         ++ [Event.prepareReceive
               (if AUDIO_TOTAL_BUF_SIZE ≤ (h.wr_ptr + sz) % 65536 then 0
                else (h.wr_ptr + sz) % 65536) AUDIO_OUT_PACKET]) := by
  subst hep
  unfold USBD_AUDIO_DataOut
  rw [hp]
  simp

/-- A packet can only trigger AUDIO_CMD_START while the session offset is
still AUDIO_OFFSET_UNKNOWN. -/
theorem emitsStart_offset_unknown (p : PDev) (he : emitsStart p = true) :
    offsetOf p = some AUDIO_OffsetTypeDef.unknown := by
  unfold emitsStart dataOutEvents offsetOf at *
  cases hp : p.classData with
  | none =>
    unfold USBD_AUDIO_DataOut at he
    rw [hp] at he
    simp at he
  | some h =>
    rw [dataOut_eq p h AUDIO_OUT_EP AUDIO_OUT_PACKET hp rfl] at he
    by_cases hc : AUDIO_TOTAL_BUF_SIZE ≤ (h.wr_ptr + AUDIO_OUT_PACKET) % 65536 ∧
        h.offset = AUDIO_OffsetTypeDef.unknown
    · simp [hc.2]
    · simp [hc, isStartCmd] at he

/-- USBD_AUDIO_DataOut never returns the session offset to
AUDIO_OFFSET_UNKNOWN. -/
theorem offset_stable (p : PDev) (hne : offsetOf p ≠ some AUDIO_OffsetTypeDef.unknown) :
    offsetOf (dataOutStep p) ≠ some AUDIO_OffsetTypeDef.unknown := by
  unfold dataOutStep offsetOf at *
  cases hp : p.classData with
  | none =>
    unfold USBD_AUDIO_DataOut
    simp [hp]
  | some h =>
    rw [hp] at hne
    rw [dataOut_eq p h AUDIO_OUT_EP AUDIO_OUT_PACKET hp rfl]
    simp only [Option.map_some]
    by_cases hc : AUDIO_TOTAL_BUF_SIZE ≤ (h.wr_ptr + AUDIO_OUT_PACKET) % 65536 ∧
        h.offset = AUDIO_OffsetTypeDef.unknown
    · simp [hc]
    · simp [hc]
      simp at hne
      exact hne

/-- From the 11th packet on, the session offset is never
AUDIO_OFFSET_UNKNOWN again. -/
theorem offset_after_eleven (n : Nat) (hn : 11 ≤ n) :
    offsetOf (stateAfter n) ≠ some AUDIO_OffsetTypeDef.unknown := by
  induction n, hn using Nat.le_induction with
  | base => decide
  | succ n hn ih => exact offset_stable (stateAfter n) ih

/-- One USBD_AUDIO_DataOut call keeps wr_ptr inside the capacity and sets
rd_enable exactly when the updated cursor equals the half capacity. -/
theorem dataOut_wr_lt (p : PDev) (h : USBD_AUDIO_HandleTypeDef) (l : Nat)
    (hp : p.classData = some h) :
    ∃ h', ((USBD_AUDIO_DataOut p AUDIO_OUT_EP l).2.1).classData = some h' ∧
      h'.wr_ptr < AUDIO_TOTAL_BUF_SIZE ∧ h'.rd_enable =
        (if h.rd_enable = 0 then
          (if h'.wr_ptr = AUDIO_TOTAL_BUF_SIZE / 2 then 1 else h.rd_enable)
         else h.rd_enable) := by
  rw [dataOut_eq p h AUDIO_OUT_EP l hp rfl]
  refine ⟨_, rfl, ?_, rfl⟩
  by_cases hc : AUDIO_TOTAL_BUF_SIZE ≤ (h.wr_ptr + l) % 65536
  · simp [hc]
    unfold AUDIO_TOTAL_BUF_SIZE
    omega
  · simp [hc]
    unfold AUDIO_TOTAL_BUF_SIZE at *
    omega

/-- Claim C1, counterexample: at read_cursor = write_cursor = 0 the modular
gap is 0, which is below the packet size, so the claim demands nominal
plus 4; the code takes the writer-ahead branch (rd_ptr > wr_ptr is false)
and returns nominal minus 4. -/
theorem drift_bangbang_claim_cex :
    (AUDIO_TOTAL_BUF_SIZE + 0 - 0) % AUDIO_TOTAL_BUF_SIZE = 0 ∧
    (AUDIO_TOTAL_BUF_SIZE + 0 - 0) % AUDIO_TOTAL_BUF_SIZE < AUDIO_OUT_PACKET ∧
    driftAdjustedSize 0 0 = AUDIO_TOTAL_BUF_SIZE / 2 - 4 ∧
    driftAdjustedSize 0 0 ≠ AUDIO_TOTAL_BUF_SIZE / 2 + 4 := by decide

/-- Claim C1 (amended): for every period tick with in-range cursors, writing
g for the modular gap (read_cursor - write_cursor) mod capacity, the
adjusted transfer size is nominal minus 4 when g = 0 (equal cursors take
the writer-ahead branch), nominal plus 4 when 0 < g < packet size,
nominal minus 4 when g exceeds capacity minus packet size, and nominal
otherwise. -/
theorem drift_bangbang_amended (rd wr : Nat) (hrd : rd < AUDIO_TOTAL_BUF_SIZE)
    (hwr : wr < AUDIO_TOTAL_BUF_SIZE) :
    driftAdjustedSize rd wr =
      if (AUDIO_TOTAL_BUF_SIZE + rd - wr) % AUDIO_TOTAL_BUF_SIZE = 0 then
        AUDIO_TOTAL_BUF_SIZE / 2 - 4
      else if (AUDIO_TOTAL_BUF_SIZE + rd - wr) % AUDIO_TOTAL_BUF_SIZE < AUDIO_OUT_PACKET then
        AUDIO_TOTAL_BUF_SIZE / 2 + 4
      else if AUDIO_TOTAL_BUF_SIZE - AUDIO_OUT_PACKET <
          (AUDIO_TOTAL_BUF_SIZE + rd - wr) % AUDIO_TOTAL_BUF_SIZE then
        AUDIO_TOTAL_BUF_SIZE / 2 - 4
      else AUDIO_TOTAL_BUF_SIZE / 2 := by
  unfold driftAdjustedSize AUDIO_TOTAL_BUF_SIZE AUDIO_OUT_PACKET at *
  simp only []
  split_ifs <;> omega

/-- Witness for drift_bangbang_amended at rd = 5, wr = 3. -/
theorem drift_bangbang_amended_witness :
    driftAdjustedSize 5 3 =
      if (AUDIO_TOTAL_BUF_SIZE + 5 - 3) % AUDIO_TOTAL_BUF_SIZE = 0 then
        AUDIO_TOTAL_BUF_SIZE / 2 - 4
      else if (AUDIO_TOTAL_BUF_SIZE + 5 - 3) % AUDIO_TOTAL_BUF_SIZE < AUDIO_OUT_PACKET then
        AUDIO_TOTAL_BUF_SIZE / 2 + 4
      else if AUDIO_TOTAL_BUF_SIZE - AUDIO_OUT_PACKET <
          (AUDIO_TOTAL_BUF_SIZE + 5 - 3) % AUDIO_TOTAL_BUF_SIZE then
        AUDIO_TOTAL_BUF_SIZE / 2 - 4
      else AUDIO_TOTAL_BUF_SIZE / 2 :=
  drift_bangbang_amended 5 3 (by decide) (by decide)

/-- Claim C2: starting from a fresh USBD_AUDIO_Init state with capacity 2048
and 192-byte packets, AUDIO_CMD_START is issued exactly on the 11th
packet, when wr_ptr first wraps, and on no other packet. -/
theorem start_fires_exactly_on_eleventh (n : Nat) (h1 : 1 ≤ n) :
    startOnCall n = true ↔ n = 11 := by
  rcases le_or_lt n 12 with hle | hgt
  · interval_cases n <;> decide
  · constructor
    · intro he
      exfalso
      exact offset_after_eleven (n - 1) (by omega)
        (emitsStart_offset_unknown (stateAfter (n - 1)) he)
    · intro hn
      omega

/-- Witness for start_fires_exactly_on_eleventh at n = 11. -/
theorem start_fires_exactly_on_eleventh_witness :
    1 ≤ 11 ∧ (startOnCall 11 = true ↔ 11 = 11) :=
  ⟨by decide, start_fires_exactly_on_eleventh 11 (by decide)⟩

/-- Claim C3, counterexample: in the fresh state the read-enable flag is
clear, yet a tick whose offset argument is AUDIO_OFFSET_FULL makes
USBD_AUDIO_Sync emit an AUDIO_CMD_PLAY playback command. -/
theorem sync_read_gating_cex :
    initPDev.classData = some initAudioHandle ∧
    initAudioHandle.rd_enable ≠ 1 ∧
    (USBD_AUDIO_Sync initPDev AUDIO_OffsetTypeDef.full).2 =
      [Event.audioCmd 0 (AUDIO_TOTAL_BUF_SIZE / 2 - 4) AudioCmd.play] := by decide

/-- Claim C3 (amended): while the read-enable flag is clear, a period tick
leaves rd_ptr unchanged for every offset argument, and it emits no
playback command unless the offset argument is AUDIO_OFFSET_FULL, in
which case it emits one AUDIO_CMD_PLAY regardless of the flag. -/
theorem sync_read_gating_amended (p : PDev) (h : USBD_AUDIO_HandleTypeDef)
    (off : AUDIO_OffsetTypeDef) (hp : p.classData = some h) (hrd : h.rd_enable ≠ 1) :
    ∃ h', (USBD_AUDIO_Sync p off).1.classData = some h' ∧ h'.rd_ptr = h.rd_ptr ∧
      (USBD_AUDIO_Sync p off).2 =
        (if off = AUDIO_OffsetTypeDef.full then
          [Event.audioCmd 0 (driftAdjustedSize h.rd_ptr h.wr_ptr) AudioCmd.play] else []) := by
  unfold USBD_AUDIO_Sync
  rw [hp]
  simp only [hrd, if_false, if_neg hrd]
  by_cases hoff : off = AUDIO_OffsetTypeDef.full
  · subst hoff
    simp
  · simp [hoff]

/-- Witness for sync_read_gating_amended at the fresh state with offset
argument AUDIO_OFFSET_HALF. -/
theorem sync_read_gating_amended_witness :
    ∃ h', (USBD_AUDIO_Sync initPDev AUDIO_OffsetTypeDef.half).1.classData = some h' ∧
      h'.rd_ptr = initAudioHandle.rd_ptr ∧
      (USBD_AUDIO_Sync initPDev AUDIO_OffsetTypeDef.half).2 =
        (if AUDIO_OffsetTypeDef.half = AUDIO_OffsetTypeDef.full then
          [Event.audioCmd 0
            (driftAdjustedSize initAudioHandle.rd_ptr initAudioHandle.wr_ptr)
            AudioCmd.play] else []) :=
  sync_read_gating_amended initPDev initAudioHandle AUDIO_OffsetTypeDef.half rfl (by decide)

/-- Claim C4, counterexample: eleven 192-byte packets each respect the max
packet size and sum to 2112, past the capacity, yet the final wr_ptr is 0
because the wraparound resets the cursor to zero and discards the
overshoot, while 2112 mod 2048 = 64. -/
theorem wraparound_mod_cex :
    elevenPackets.all (fun l => decide (l ≤ AUDIO_OUT_PACKET)) = true ∧
    AUDIO_TOTAL_BUF_SIZE < elevenPackets.sum ∧
    (deliverList initPDev elevenPackets).classData.map (fun h => h.wr_ptr) = some 0 ∧
    elevenPackets.sum % AUDIO_TOTAL_BUF_SIZE = 64 ∧
    (deliverList initPDev elevenPackets).classData.map (fun h => h.wr_ptr) ≠
      some (elevenPackets.sum % AUDIO_TOTAL_BUF_SIZE) := by decide

/-- Claim C4 (amended): for every sequence of delivered packets whose
lengths are each at most the max packet size and sum past the capacity,
after every call the write cursor lies in the interval from 0 up to but
not including the capacity; it does not in general equal the sum of
lengths mod capacity, because a wraparound resets the cursor to zero and
discards the overshoot. -/
theorem wr_ptr_in_range_amended (ls : List Nat)
    (_hall : ls.all (fun l => decide (l ≤ AUDIO_OUT_PACKET)) = true)
    (_hsum : AUDIO_TOTAL_BUF_SIZE < ls.sum) (k : Nat) :
    ∃ h', (deliverList initPDev (ls.take k)).classData = some h' ∧
      h'.wr_ptr < AUDIO_TOTAL_BUF_SIZE := by
  have key : ∀ (ms : List Nat) (p : PDev) (h0 : USBD_AUDIO_HandleTypeDef),
      p.classData = some h0 → h0.wr_ptr < AUDIO_TOTAL_BUF_SIZE →
      ∃ h', (deliverList p ms).classData = some h' ∧ h'.wr_ptr < AUDIO_TOTAL_BUF_SIZE := by
    intro ms
    induction ms with
    | nil => exact fun p h0 hp hw => ⟨h0, hp, hw⟩
    | cons l ms ih =>
      intro p h0 hp hw
      obtain ⟨h1, hp1, hw1, -⟩ := dataOut_wr_lt p h0 l hp
      exact ih _ h1 hp1 hw1
  exact key (ls.take k) initPDev initAudioHandle rfl (by decide)

/-- Witness for wr_ptr_in_range_amended after 5 of 12 nominal packets. -/
theorem wr_ptr_in_range_amended_witness :
    ∃ h', (deliverList initPDev ((List.replicate 12 192).take 5)).classData = some h' ∧
      h'.wr_ptr < AUDIO_TOTAL_BUF_SIZE :=
  wr_ptr_in_range_amended (List.replicate 12 192) (by decide) (by decide) 5

/-- Claim C5: while the read-enable flag is clear, one data-received call on
the audio OUT endpoint sets it exactly when the updated wr_ptr equals
half the capacity; and along any packet sequence whose intermediate write
cursors never land exactly on half the capacity, the flag stays clear. -/
theorem rd_enable_latch :
    (∀ (p : PDev) (h : USBD_AUDIO_HandleTypeDef) (sz : Nat),
      p.classData = some h → h.rd_enable = 0 →
      ∃ h', ((USBD_AUDIO_DataOut p AUDIO_OUT_EP sz).2.1).classData = some h' ∧
        (h'.rd_enable = 1 ↔ h'.wr_ptr = AUDIO_TOTAL_BUF_SIZE / 2)) ∧
    (∀ (ls : List Nat) (p : PDev) (h : USBD_AUDIO_HandleTypeDef),
      p.classData = some h → h.rd_enable = 0 →
      (∀ k, 1 ≤ k → k ≤ ls.length →
        (deliverList p (ls.take k)).classData.map (fun h2 => h2.wr_ptr) ≠
          some (AUDIO_TOTAL_BUF_SIZE / 2)) →
      ∃ h', (deliverList p ls).classData = some h' ∧ h'.rd_enable = 0) := by
  constructor
  · intro p h sz hp hrd
    obtain ⟨h', hp', hw', hre'⟩ := dataOut_wr_lt p h sz hp
    refine ⟨h', hp', ?_⟩
    rw [hre', hrd]
    by_cases hc : h'.wr_ptr = AUDIO_TOTAL_BUF_SIZE / 2 <;> simp [hc]
  · intro ls
    induction ls with
    | nil => exact fun p h hp hrd _ => ⟨h, hp, hrd⟩
    | cons l ls ih =>
      intro p h hp hrd hk
      obtain ⟨h1, hp1, hw1, hre1⟩ := dataOut_wr_lt p h l hp
      have hne : h1.wr_ptr ≠ AUDIO_TOTAL_BUF_SIZE / 2 := by
        have := hk 1 (by omega) (by simp)
        simp only [List.take_succ_cons, List.take_zero] at this
        intro hcontra
        apply this
        show (deliverList ((USBD_AUDIO_DataOut p AUDIO_OUT_EP l).2.1) []).classData.map
          (fun h2 => h2.wr_ptr) = some (AUDIO_TOTAL_BUF_SIZE / 2)
        unfold deliverList
        rw [hp1]
        simp [hcontra]
      have hrd1 : h1.rd_enable = 0 := by
        rw [hre1, hrd]
        simp [hne]
      have hk' : ∀ k, 1 ≤ k → k ≤ ls.length →
          (deliverList ((USBD_AUDIO_DataOut p AUDIO_OUT_EP l).2.1) (ls.take k)).classData.map
            (fun h2 => h2.wr_ptr) ≠ some (AUDIO_TOTAL_BUF_SIZE / 2) := by
        intro k hk1 hk2
        have := hk (k + 1) (by omega) (by simp; omega)
        simpa only [List.take_succ_cons] using this
      exact ih _ h1 hp1 hrd1 hk'

/-- Witness for rd_enable_latch: one 192-byte packet in the fresh state, and
the singleton sequence of one 192-byte packet, whose only intermediate
cursor is 192. -/
theorem rd_enable_latch_witness :
    (∃ h', ((USBD_AUDIO_DataOut initPDev AUDIO_OUT_EP 192).2.1).classData = some h' ∧
      (h'.rd_enable = 1 ↔ h'.wr_ptr = AUDIO_TOTAL_BUF_SIZE / 2)) ∧
    (∃ h', (deliverList initPDev [192]).classData = some h' ∧ h'.rd_enable = 0) :=
  ⟨rd_enable_latch.1 initPDev initAudioHandle 192 rfl rfl,
   rd_enable_latch.2 [192] initPDev initAudioHandle rfl rfl (by
     intro k hk1 hk2
     simp at hk2
     have hk : k = 1 := by omega
     subst hk
     decide)⟩

/-- Claim C6: a SET_CUR setup packet with wLength 1 whose wIndex high byte
is the mute-control unit id, followed by a data stage delivering [1],
makes the MuteCtl callback fire with value 1; delivering [0] makes it
fire with value 0. -/
theorem mute_round_trip (p : PDev) (h : USBD_AUDIO_HandleTypeDef) (wIndex : Nat)
    (hp : p.classData = some h)
    (hu : wIndex / 256 % 256 = AUDIO_OUT_STREAMING_CTRL) :
    (muteRoundTrip p wIndex [1]).2.2 = [Event.muteCtl 1] ∧
    (muteRoundTrip p wIndex [0]).2.2 = [Event.muteCtl 0] := by
  unfold muteRoundTrip receiveControlPayload AUDIO_REQ_SetCurrent USBD_AUDIO_EP0_RxReady setCurReq
  rw [hp]
  simp [hu]

/-- Witness for mute_round_trip in the fresh state with wIndex 0x0200. -/
theorem mute_round_trip_witness :
    (muteRoundTrip initPDev 0x0200 [1]).2.2 = [Event.muteCtl 1] ∧
    (muteRoundTrip initPDev 0x0200 [0]).2.2 = [Event.muteCtl 0] :=
  mute_round_trip initPDev initAudioHandle 0x0200 rfl (by decide)

/-- Claim C7, counterexample: with a SET_CUR pending for unit 3, the data
stage completion leaves control.cmd equal to AUDIO_REQ_SET_CUR, which is
not the cleared value 0, and fires no callback: the transaction does not
return to Idle for a non-mute unit. -/
theorem rx_ready_other_unit_cex :
    pendingOtherUnitPDev.classData.map (fun h => h.control.cmd) = some AUDIO_REQ_SET_CUR ∧
    pendingOtherUnitPDev.classData.map (fun h => h.control.unit) ≠
      some AUDIO_OUT_STREAMING_CTRL ∧
    (USBD_AUDIO_EP0_RxReady pendingOtherUnitPDev).2.1.classData.map
      (fun h => h.control.cmd) = some AUDIO_REQ_SET_CUR ∧
    AUDIO_REQ_SET_CUR ≠ 0 ∧
    (USBD_AUDIO_EP0_RxReady pendingOtherUnitPDev).2.2 = [] := by decide

/-- Claim C7 (amended): for every pending SET_CUR transaction, the data
stage completion invokes the mute callback with payload byte 0 and clears
pending_command and its length when the target is the mute-control unit;
for any other target unit it is silently accepted with no callback and
the whole state, the pending command included, is left unchanged. -/
theorem rx_ready_unit_split (p : PDev) (h : USBD_AUDIO_HandleTypeDef)
    (hp : p.classData = some h) (hcmd : h.control.cmd = AUDIO_REQ_SET_CUR) :
    (h.control.unit = AUDIO_OUT_STREAMING_CTRL →
      USBD_AUDIO_EP0_RxReady p =
        (USBD_Status.ok,
         { p with classData := some { h with control := { h.control with cmd := 0, len := 0 } } },
         [Event.muteCtl (h.control.data.headD 0)])) ∧
    (h.control.unit ≠ AUDIO_OUT_STREAMING_CTRL →
      USBD_AUDIO_EP0_RxReady p = (USBD_Status.ok, p, [])) := by
  unfold USBD_AUDIO_EP0_RxReady
  rw [hp]
  constructor <;> intro hu <;> simp [hcmd, hu]

/-- Witness for rx_ready_unit_split at a pending mute transaction. -/
theorem rx_ready_unit_split_witness :
    (pendingMuteHandle.control.unit = AUDIO_OUT_STREAMING_CTRL →
      USBD_AUDIO_EP0_RxReady pendingMutePDev =
        (USBD_Status.ok,
         { pendingMutePDev with classData := some { pendingMuteHandle with control :=
             { pendingMuteHandle.control with cmd := 0, len := 0 } } },
         [Event.muteCtl (pendingMuteHandle.control.data.headD 0)])) ∧
    (pendingMuteHandle.control.unit ≠ AUDIO_OUT_STREAMING_CTRL →
      USBD_AUDIO_EP0_RxReady pendingMutePDev = (USBD_Status.ok, pendingMutePDev, [])) :=
  rx_ready_unit_split pendingMutePDev pendingMuteHandle rfl rfl

/-- Claim C8: every GET_CUR request answers at once with
min(wLength, USB_MAX_EP0_SIZE) bytes that are all zero, whatever session
state earlier SET_CUR transactions left behind, so repeated GET_CUR
calls return identical zeroed payloads. -/
theorem get_cur_zeroed (p : PDev) (h : USBD_AUDIO_HandleTypeDef)
    (req : USBD_SetupReqTypedef) (hp : p.classData = some h) :
    (AUDIO_REQ_GetCurrent p req).2 =
      [Event.ctlSendData (List.replicate (min req.wLength USB_MAX_EP0_SIZE) 0)] := by
  unfold AUDIO_REQ_GetCurrent
  rw [hp]
  simp [List.take_replicate]

/-- Witness for get_cur_zeroed on a one-byte GET_CUR in the fresh state. -/
theorem get_cur_zeroed_witness :
    (AUDIO_REQ_GetCurrent initPDev getCurReqOne).2 =
      [Event.ctlSendData (List.replicate (min getCurReqOne.wLength USB_MAX_EP0_SIZE) 0)] :=
  get_cur_zeroed initPDev initAudioHandle getCurReqOne rfl

/-- Claim C9: a SET_CUR setup packet with wLength 0 is a no-op: the device
state, the control transaction record included, is returned unchanged and
no data-stage reception is armed. -/
theorem set_cur_zero_length_noop (p : PDev) (req : USBD_SetupReqTypedef)
    (hw : req.wLength = 0) : AUDIO_REQ_SetCurrent p req = (p, []) := by
  unfold AUDIO_REQ_SetCurrent
  cases hp : p.classData with
  | none => rfl
  | some h => simp [hw]

/-- Witness for set_cur_zero_length_noop on a zero-length SET_CUR. -/
theorem set_cur_zero_length_noop_witness :
    AUDIO_REQ_SetCurrent initPDev (setCurReq 0 0x0200) = (initPDev, []) :=
  set_cur_zero_length_noop initPDev (setCurReq 0 0x0200) rfl

/-- Claim C10: when the per-class data slot is NULL, Setup, the EP0
data-stage completion and the isochronous DataOut return USBD_FAIL, the
period-tick Sync returns at once, and none of them touches any state or
invokes any collaborator. -/
theorem null_class_data_guard (p : PDev) (req : USBD_SetupReqTypedef)
    (off : AUDIO_OffsetTypeDef) (ep sz : Nat) (hp : p.classData = Option.none) :
    USBD_AUDIO_Setup p req = (USBD_Status.fail, p, []) ∧
    USBD_AUDIO_EP0_RxReady p = (USBD_Status.fail, p, []) ∧
    USBD_AUDIO_Sync p off = (p, []) ∧
    USBD_AUDIO_DataOut p ep sz = (USBD_Status.fail, p, []) := by
  unfold USBD_AUDIO_Setup USBD_AUDIO_EP0_RxReady USBD_AUDIO_Sync USBD_AUDIO_DataOut
  rw [hp]
  exact ⟨rfl, rfl, rfl, rfl⟩

/-- Witness for null_class_data_guard on a device with a NULL class slot. -/
theorem null_class_data_guard_witness :
    USBD_AUDIO_Setup nullPDev (setCurReq 1 0x0200) = (USBD_Status.fail, nullPDev, []) ∧
    USBD_AUDIO_EP0_RxReady nullPDev = (USBD_Status.fail, nullPDev, []) ∧
    USBD_AUDIO_Sync nullPDev AUDIO_OffsetTypeDef.half = (nullPDev, []) ∧
    USBD_AUDIO_DataOut nullPDev 1 192 = (USBD_Status.fail, nullPDev, []) :=
  null_class_data_guard nullPDev (setCurReq 1 0x0200) AUDIO_OffsetTypeDef.half 1 192 rfl

end UsbdAudio
